import Mathlib

/-!
Verification of the fee-escalation / dual-channel broadcast core of the
evmauto CLI. The definitions below are a shallow embedding of
src/index.js (helper arithmetic) and src/RPC/Relay (fee estimation, relay
submission, the 6-attempt escalating sender, native-coin drain resolution,
and token transfer). Wei amounts are naturals; JS BigInt division
truncates, which on naturals is Nat division. Nullable provider fields
(fee data, blocks, base fees) are Option values; code that would throw a
runtime error is embedded as an Option/Except failure.
-/

namespace EvmAuto

/-- One gwei multiple in wei, as produced by ethers.parseUnits(n, "gwei"). -/
def gwei (n : ℕ) : ℕ := n * 1000000000

/-- Exact decimal scaling of a wei amount, from mulBigInt in
src/index.js lines 34-41 (same function in src/unnamed/part_000). The JS
code reads the multiplier back from its shortest decimal string: md is the
number of digits after the dot (0 when the string has no dot, in which
case it returns b * BigInt(f)), and mp is Math.round(f * 10 ** md), which
recovers the exact decimal numerator for multipliers of at most two
decimal digits in the range this tool accepts. We embed the multiplier as
the pair (mp, md) that the code computes with. -/
def mulBigInt (b mp md : ℕ) : ℕ :=
  if md = 0 then b * mp else b * mp / 10 ^ md

/-- Result of provider.getFeeData(): either field may be null. -/
structure FeeData where
  maxPriorityFeePerGas : Option ℕ
  maxFeePerGas : Option ℕ
deriving DecidableEq

/-- A chain block as used here: only its (possibly absent) base fee. -/
structure Block where
  baseFeePerGas : Option ℕ
deriving DecidableEq

/-- A fee quote: the two EIP-1559 components, in wei per gas. -/
structure FeeQuote where
  maxPriorityFeePerGas : ℕ
  maxFeePerGas : ℕ
deriving DecidableEq

/-- Effective priority fee before scaling, src/RPC/Relay line 36 and
line 52: fd.maxPriorityFeePerGas with a 2 gwei default for null. -/
def feePriority (fd : FeeData) : ℕ :=
  fd.maxPriorityFeePerGas.getD (gwei 2)

/-- Effective cap fee before scaling inside getFee, src/RPC/Relay lines
37-41. The JS test `if (!m)` treats both null and 0n as missing; the
fallback is (latest block base fee, defaulting to 1 gwei when the block or
its base fee is null) plus the priority fee. -/
def feeCapRaw (fd : FeeData) (latest : Option Block) : ℕ :=
  if fd.maxFeePerGas.getD 0 = 0 then
    (Option.bind latest Block.baseFeePerGas).getD (gwei 1) + feePriority fd
  else fd.maxFeePerGas.getD 0

/-- The Fee Estimator, getFee in src/RPC/Relay lines 34-46: scales both
effective components by the multiplier (mp, md) via mulBigInt. -/
def getFee (fd : FeeData) (latest : Option Block) (mp md : ℕ) : FeeQuote :=
  { maxPriorityFeePerGas := mulBigInt (feePriority fd) mp md,
    maxFeePerGas := mulBigInt (feeCapRaw fd latest) mp md }

/-- The inline initial fee assignment of sendWithBump, src/RPC/Relay lines
51-55. Unlike getFee, the null test on maxFeePerGas is `??` (null only, 0n
is kept), and the base-fee fallback
`(await provider.getBlock("latest")).baseFeePerGas + p` has no defaults: a
null block or a null base fee throws a TypeError, embedded as none. -/
def assignInitialFees (fd : FeeData) (latest : Option Block) (mp md : ℕ) :
    Option FeeQuote :=
  match fd.maxFeePerGas with
  | some m =>
    some { maxPriorityFeePerGas := mulBigInt (feePriority fd) mp md,
           maxFeePerGas := mulBigInt m mp md }
  | none =>
    match Option.bind latest Block.baseFeePerGas with
    | none => none
    | some base =>
      some { maxPriorityFeePerGas := mulBigInt (feePriority fd) mp md,
             maxFeePerGas := mulBigInt (base + feePriority fd) mp md }

/-- An HTTP response from the relay as observed by sendViaRelay: its 2xx
status flag, its full body text, and whether the body parses as JSON. -/
structure RelayResponse where
  ok : Bool
  body : String
  parsesAsJson : Bool
deriving DecidableEq

/-- The value sendViaRelay returns on success, src/RPC/Relay line 30:
the parsed body when JSON.parse succeeds, the raw text otherwise. -/
inductive RelayOut
  | json (body : String)
  | raw (body : String)
deriving DecidableEq

/-- The body text carried by a relay success value. -/
def RelayOut.body : RelayOut → String
  | RelayOut.json s => s
  | RelayOut.raw s => s

/-- Parse-or-raw handling of a relay response body, src/RPC/Relay line 30. -/
def relayOut (r : RelayResponse) : RelayOut :=
  if r.parsesAsJson then RelayOut.json r.body else RelayOut.raw r.body

/-- sendViaRelay, src/RPC/Relay lines 18-31: POST the raw transaction,
read the body, throw (carrying the body) on a non-2xx status, otherwise
return the parsed-or-raw body. -/
def sendViaRelay (r : RelayResponse) : Except String RelayOut :=
  if r.ok then Except.ok (relayOut r) else Except.error r.body

/-- The arguments handed to the external encoder by
iface.encodeFunctionData("transfer", [to, val]), src/RPC/Relay line 156. -/
structure TransferCall where
  toArg : ℕ
  amountArg : ℕ
deriving DecidableEq

/-- The transaction fields fixed before sendWithBump runs: recipient,
native value or token call data, gas limit. Addresses are numerals, and
the JS field named to is rendered toAddr (to is reserved in Lean). -/
structure BaseTx where
  toAddr : ℕ
  value : Option ℕ
  data : Option TransferCall
  gasLimit : ℕ
deriving DecidableEq

/-- The full pending transaction mutated by sendWithBump: the base fields
plus the nonce and the two fee fields it assigns. -/
structure Tx where
  toAddr : ℕ
  value : Option ℕ
  data : Option TransferCall
  gasLimit : ℕ
  nonce : ℕ
  maxPriorityFeePerGas : ℕ
  maxFeePerGas : ℕ
deriving DecidableEq

/-- One escalation step, src/RPC/Relay lines 76-77: both fee fields are
replaced by mulBigInt(previous, 1.25); String(1.25) has two decimal
digits, so the pair is (125, 2). All other fields are untouched. -/
def bump125 (tx : Tx) : Tx :=
  { tx with
    maxPriorityFeePerGas := mulBigInt tx.maxPriorityFeePerGas 125 2,
    maxFeePerGas := mulBigInt tx.maxFeePerGas 125 2 }

/-- Outcome of one public-endpoint attempt, src/RPC/Relay lines 67-73:
sendTransaction may throw (sendError); otherwise sent.wait(1) either
yields a receipt with a block number or, on timeout, null (unconfirmed,
via the .catch(() => null)). A receipt whose blockNumber is 0 is falsy in
the JS test `if (rec?.blockNumber)` and is treated as unconfirmed. -/
inductive PubOutcome
  | receipt (blockNumber : ℕ)
  | unconfirmed
  | sendError
deriving DecidableEq

/-- The broadcast channel fixed for one logical send: a private relay
(indexed responses, one per attempt) or the public RPC endpoint (indexed
attempt outcomes). -/
inductive Channel
  | relay (responses : ℕ → RelayResponse)
  | publicRpc (outcomes : ℕ → PubOutcome)

/-- Observable events of the escalation loop: a delivery attempt carrying
the exact transaction submitted, the sleep(3000) of the unconfirmed branch
(line 75, followed by the fee bump), and the sleep(3000) of the catch
branch (line 81, no fee bump). -/
inductive Event
  | attempt (tx : Tx)
  | bumpPause
  | errorPause
deriving DecidableEq

/-- Terminal result of sendWithBump: a confirmed receipt, a relay
response returned as-is, or the line 84 throw after the loop ends. -/
inductive SendResult
  | confirmed (blockNumber : ℕ)
  | relayAccepted (out : RelayOut)
  | retriesExhausted
deriving DecidableEq

/-- The retry loop of sendWithBump, src/RPC/Relay lines 57-84, as a
trace-producing function. fuel is the remaining iterations of
`for (let i = 0; i < 6; i++)` and i the loop index feeding the channel
oracle. Relay branch (lines 59-66): a sendViaRelay success returns
immediately; its thrown error is caught, the loop pauses (errorPause) and
retries with the SAME transaction. Public branch (lines 67-77): a receipt
with a nonzero block number returns; otherwise the loop pauses (bumpPause)
and retries with both fee fields bumped by 1.25. A sendTransaction error
is caught like the relay error. After the loop, line 84 throws
(retriesExhausted). -/
def runAttempts (ch : Channel) : ℕ → ℕ → Tx → List Event × SendResult
  | _, 0, _ => ([], SendResult.retriesExhausted)
  | i, fuel + 1, tx =>
    match ch with
    | Channel.relay rs =>
      match sendViaRelay (rs i) with
      | Except.ok out => ([Event.attempt tx], SendResult.relayAccepted out)
      | Except.error _ =>
        (Event.attempt tx :: Event.errorPause ::
            (runAttempts (Channel.relay rs) (i + 1) fuel tx).1,
         (runAttempts (Channel.relay rs) (i + 1) fuel tx).2)
    | Channel.publicRpc outcomes =>
      match outcomes i with
      | PubOutcome.sendError =>
        (Event.attempt tx :: Event.errorPause ::
            (runAttempts (Channel.publicRpc outcomes) (i + 1) fuel tx).1,
         (runAttempts (Channel.publicRpc outcomes) (i + 1) fuel tx).2)
      | PubOutcome.receipt b =>
        if b = 0 then
          (Event.attempt tx :: Event.bumpPause ::
              (runAttempts (Channel.publicRpc outcomes) (i + 1) fuel (bump125 tx)).1,
           (runAttempts (Channel.publicRpc outcomes) (i + 1) fuel (bump125 tx)).2)
        else ([Event.attempt tx], SendResult.confirmed b)
      | PubOutcome.unconfirmed =>
        (Event.attempt tx :: Event.bumpPause ::
            (runAttempts (Channel.publicRpc outcomes) (i + 1) fuel (bump125 tx)).1,
         (runAttempts (Channel.publicRpc outcomes) (i + 1) fuel (bump125 tx)).2)

/-- sendWithBump, src/RPC/Relay lines 49-85: assign the current pending
nonce (line 50) and the initial fees (lines 51-55, which can fail, see
assignInitialFees), then run the 6-iteration retry loop. -/
def sendWithBump (ch : Channel) (fd : FeeData) (latest : Option Block)
    (pendingNonce : ℕ) (base : BaseTx) (mp md : ℕ) :
    Option (List Event × SendResult) :=
  (assignInitialFees fd latest mp md).map fun fee =>
    runAttempts ch 0 6
      { toAddr := base.toAddr, value := base.value, data := base.data,
        gasLimit := base.gasLimit, nonce := pendingNonce,
        maxPriorityFeePerGas := fee.maxPriorityFeePerGas,
        maxFeePerGas := fee.maxFeePerGas }

/-- The transactions carried by the attempt events of a trace, in order. -/
def attemptTxs (evs : List Event) : List Tx :=
  evs.filterMap fun e =>
    match e with
    | Event.attempt t => some t
    | _ => none

/-- Number of delivery attempts in a trace. -/
def countAttempts (evs : List Event) : ℕ := (attemptTxs evs).length

/-- Whether an event is a delivery attempt. -/
def isAttempt : Event → Bool
  | Event.attempt _ => true
  | _ => false

/-- Number of fee-bump pauses that fall strictly between two delivery
attempts of a trace (a trailing fee-bump pause after the final attempt is
not counted). -/
def interveningBumpPauses : List Event → ℕ
  | [] => 0
  | Event.bumpPause :: rest =>
    (if rest.any isAttempt then 1 else 0) + interveningBumpPauses rest
  | _ :: rest => interveningBumpPauses rest

/-- The requested native amount: the literal "ALL" or a fixed wei value
(the result of ethers.parseEther on the amount string). -/
inductive NativeAmount
  | all
  | fixed (wei : ℕ)
deriving DecidableEq

/-- One iteration of the sendNative polling loop, src/RPC/Relay lines
89-110, up to the value resolution: none means the loop sleeps and
re-polls (zero balance, line 91, or balance not exceeding the reserved gas
cost, line 102); some v means it proceeds toward submission with value v.
The reserved cost is gas(21000) * fee.maxFeePerGas * safeMargin(2),
line 100. -/
def sendNativeStep (bal : ℕ) (fee : FeeQuote) (amount : NativeAmount) :
    Option ℕ :=
  if bal ≤ 0 then none
  else if bal ≤ 21000 * fee.maxFeePerGas * 2 then none
  else some (match amount with
    | NativeAmount.all => bal - 21000 * fee.maxFeePerGas * 2
    | NativeAmount.fixed w => w)

/-- The requested token amount: the literal "ALL" or a fixed number of
whole display units (ethers.parseUnits scales it by the token decimals). -/
inductive TokenAmount
  | all
  | fixed (units : ℕ)
deriving DecidableEq

/-- Token value resolution, src/RPC/Relay line 144: the raw balanceOf
result for "ALL", otherwise parseUnits(amount, dec) = amount * 10 ^ dec. -/
def tokenSendValue (amount : TokenAmount) (bal dec : ℕ) : ℕ :=
  match amount with
  | TokenAmount.all => bal
  | TokenAmount.fixed u => u * 10 ^ dec

/-- The base transaction built by sendToken, src/RPC/Relay lines 155-157:
recipient is the token contract, no native value, call data is the encoded
transfer of the resolved value to the requested recipient, gas limit
100000. -/
def sendTokenBase (tokenAddr recipient : ℕ) (amount : TokenAmount)
    (bal dec : ℕ) : BaseTx :=
  { toAddr := tokenAddr, value := none,
    data := some { toArg := recipient, amountArg := tokenSendValue amount bal dec },
    gasLimit := 100000 }

/-- A relay oracle that rejects the first attempt and accepts the second. -/
def rsRejectThenAccept : ℕ → RelayResponse := fun i =>
  if i = 0 then { ok := false, body := "rejected", parsesAsJson := false }
  else { ok := true, body := "accepted", parsesAsJson := true }

/-- Concrete transactions used to instantiate theorems with hypotheses. -/
def txW2 : Tx := ⟨1, some 5, none, 21000, 3, 6, 14⟩

def baseW3 : BaseTx := ⟨5, some 100, none, 21000⟩

def txW3 : Tx := ⟨5, some 100, none, 21000, 9, 6, 14⟩

def txW5 : Tx := ⟨4, some 11, none, 21000, 2, 3, 3⟩

def txW6 : Tx := ⟨4, some 11, none, 21000, 2, 3, 3⟩

def txC9 : Tx := ⟨1, some 100, none, 21000, 7, 20, 10⟩

def txW9 : Tx := ⟨1, some 5, none, 21000, 0, 4, 8⟩

def txW10 : Tx := ⟨1, none, some ⟨2, 500000000⟩, 100000, 0, 2, 2⟩

/-! Helper lemmas shared across the claim theorems. -/

/-- mulBigInt is the single multiply-then-divide on naturals, in both of
its branches. -/
lemma mulBigInt_eq_div (b mp md : ℕ) : mulBigInt b mp md = b * mp / 10 ^ md := by
  unfold mulBigInt
  split
  · rename_i h0
    subst h0
    simp
  · rfl

/-- mulBigInt computes the rational product truncated toward zero. -/
lemma mulBigInt_floor (b mp md : ℕ) :
    mulBigInt b mp md = ⌊(b : ℚ) * ((mp : ℚ) / 10 ^ md)⌋₊ := by
  have h : (b : ℚ) * ((mp : ℚ) / 10 ^ md) =
      ((b * mp : ℕ) : ℚ) / ((10 ^ md : ℕ) : ℚ) := by
    push_cast
    ring
  rw [mulBigInt_eq_div, h, Nat.floor_div_nat, Nat.floor_natCast]

/-- mulBigInt is monotone in the scaled amount. -/
lemma mulBigInt_mono {x y : ℕ} (mp md : ℕ) (h : x ≤ y) :
    mulBigInt x mp md ≤ mulBigInt y mp md := by
  rw [mulBigInt_eq_div, mulBigInt_eq_div]
  exact Nat.div_le_div_right (Nat.mul_le_mul h (Nat.le_refl mp))

/-- The escalation multiplier pair (125, 2) computes floor of times 1.25. -/
lemma mulBigInt125_eq_floor (x : ℕ) :
    mulBigInt x 125 2 = ⌊(x : ℚ) * 1.25⌋₊ := by
  rw [mulBigInt_floor]
  norm_num

lemma attemptTxs_nil : attemptTxs [] = [] := rfl

lemma attemptTxs_attempt (t : Tx) (l : List Event) :
    attemptTxs (Event.attempt t :: l) = t :: attemptTxs l := rfl

lemma attemptTxs_bumpPause (l : List Event) :
    attemptTxs (Event.bumpPause :: l) = attemptTxs l := rfl

lemma attemptTxs_errorPause (l : List Event) :
    attemptTxs (Event.errorPause :: l) = attemptTxs l := rfl

/-- The loop body performs at most one delivery attempt per unit of fuel. -/
lemma countAttempts_runAttempts_le (ch : Channel) :
    ∀ (fuel i : ℕ) (tx : Tx),
      countAttempts (runAttempts ch i fuel tx).1 ≤ fuel := by
  intro fuel
  induction fuel with
  | zero =>
    intro i tx
    simp [runAttempts, countAttempts, attemptTxs_nil]
  | succ n ih =>
    intro i tx
    cases ch with
    | relay rs =>
      cases hs : sendViaRelay (rs i) with
      | ok out =>
        simp [runAttempts, hs, countAttempts, attemptTxs_attempt, attemptTxs_nil]
      | error e =>
        simp only [runAttempts, hs, countAttempts, attemptTxs_attempt,
          attemptTxs_errorPause, List.length_cons]
        exact Nat.succ_le_succ (ih (i + 1) tx)
    | publicRpc outcomes =>
      cases ho : outcomes i with
      | sendError =>
        simp only [runAttempts, ho, countAttempts, attemptTxs_attempt,
          attemptTxs_errorPause, List.length_cons]
        exact Nat.succ_le_succ (ih (i + 1) tx)
      | receipt b =>
        by_cases hb : b = 0
        · subst hb
          simp only [runAttempts, ho, if_pos rfl, countAttempts,
            attemptTxs_attempt, attemptTxs_bumpPause, List.length_cons]
          exact Nat.succ_le_succ (ih (i + 1) (bump125 tx))
        · simp [runAttempts, ho, hb, countAttempts, attemptTxs_attempt,
            attemptTxs_nil]
      | unconfirmed =>
        simp only [runAttempts, ho, countAttempts, attemptTxs_attempt,
          attemptTxs_bumpPause, List.length_cons]
        exact Nat.succ_le_succ (ih (i + 1) (bump125 tx))

/-- Every transaction the loop attempts agrees with the starting
transaction on every field other than the two fee fields: the fee bump is
the only mutation the loop performs. -/
lemma attempt_fields (ch : Channel) :
    ∀ (fuel i : ℕ) (tx t : Tx),
      t ∈ attemptTxs (runAttempts ch i fuel tx).1 →
      t.nonce = tx.nonce ∧ t.toAddr = tx.toAddr ∧ t.value = tx.value ∧
        t.data = tx.data ∧ t.gasLimit = tx.gasLimit := by
  intro fuel
  induction fuel with
  | zero =>
    intro i tx t ht
    simp [runAttempts, attemptTxs_nil] at ht
  | succ n ih =>
    intro i tx t ht
    cases ch with
    | relay rs =>
      cases hs : sendViaRelay (rs i) with
      | ok out =>
        simp only [runAttempts, hs, attemptTxs_attempt, attemptTxs_nil,
          List.mem_singleton] at ht
        subst ht
        exact ⟨rfl, rfl, rfl, rfl, rfl⟩
      | error e =>
        simp only [runAttempts, hs, attemptTxs_attempt, attemptTxs_errorPause,
          List.mem_cons] at ht
        rcases ht with ht | ht
        · subst ht
          exact ⟨rfl, rfl, rfl, rfl, rfl⟩
        · exact ih (i + 1) tx t ht
    | publicRpc outcomes =>
      cases ho : outcomes i with
      | sendError =>
        simp only [runAttempts, ho, attemptTxs_attempt, attemptTxs_errorPause,
          List.mem_cons] at ht
        rcases ht with ht | ht
        · subst ht
          exact ⟨rfl, rfl, rfl, rfl, rfl⟩
        · exact ih (i + 1) tx t ht
      | receipt b =>
        by_cases hb : b = 0
        · subst hb
          simp only [runAttempts, ho, reduceIte, attemptTxs_attempt,
            attemptTxs_bumpPause, List.mem_cons] at ht
          rcases ht with ht | ht
          · subst ht
            exact ⟨rfl, rfl, rfl, rfl, rfl⟩
          · simpa [bump125] using ih (i + 1) (bump125 tx) t ht
        · simp only [runAttempts, ho, if_neg hb, attemptTxs_attempt,
            attemptTxs_nil, List.mem_singleton] at ht
          subst ht
          exact ⟨rfl, rfl, rfl, rfl, rfl⟩
      | unconfirmed =>
        simp only [runAttempts, ho, attemptTxs_attempt, attemptTxs_bumpPause,
          List.mem_cons] at ht
        rcases ht with ht | ht
        · subst ht
          exact ⟨rfl, rfl, rfl, rfl, rfl⟩
        · simpa [bump125] using ih (i + 1) (bump125 tx) t ht

/-- Against a relay that rejects every attempt, the loop burns all its
fuel retrying the SAME transaction and ends exhausted. -/
lemma relay_allFail (rs : ℕ → RelayResponse)
    (h : ∀ i, (rs i).ok = false) :
    ∀ (fuel i : ℕ) (tx : Tx),
      (runAttempts (Channel.relay rs) i fuel tx).2 = SendResult.retriesExhausted ∧
      attemptTxs (runAttempts (Channel.relay rs) i fuel tx).1 =
        List.replicate fuel tx := by
  intro fuel
  induction fuel with
  | zero =>
    intro i tx
    simp [runAttempts, attemptTxs_nil]
  | succ n ih =>
    intro i tx
    have hs : sendViaRelay (rs i) = Except.error (rs i).body := by
      simp [sendViaRelay, h i]
    simp only [runAttempts, hs]
    refine ⟨(ih (i + 1) tx).1, ?_⟩
    simp [attemptTxs_attempt, attemptTxs_errorPause, (ih (i + 1) tx).2,
      List.replicate_succ]

/-! The claims. -/

/-- Claim C7: for every non-negative wei amount b and every positive
multiplier with at most 2 decimal digits, read as numerator mp over the
implied power of ten 10 ^ md, mulBigInt returns exactly the rational
product truncated toward zero, with no drift at 1 wei granularity. -/
theorem C7_mulBigInt_exact : ∀ (b mp md : ℕ), md ≤ 2 → 0 < mp →
    mulBigInt b mp md = ⌊(b : ℚ) * ((mp : ℚ) / 10 ^ md)⌋₊ :=
  fun b mp md _ _ => mulBigInt_floor b mp md

/-- Witness for C7 at b = 5 wei and multiplier 1.25 = 125 / 10 ^ 2. -/
theorem C7_witness :
    mulBigInt 5 125 2 = ⌊(5 : ℚ) * ((125 : ℚ) / 10 ^ 2)⌋₊ :=
  C7_mulBigInt_exact 5 125 2 (by decide) (by decide)

/-- Claim C2: each escalation step replaces priorityFee and capFee by
exactly floor(previous times 1.25), computed by the integer-exact
multiply-then-divide method; capFee at least priorityFee is preserved by
every escalation step; and in an always-unconfirmed run the attempted
transactions are exactly the successive bump125 iterates of the initial
transaction. -/
theorem C2_escalation_exact :
    (∀ tx : Tx,
        (bump125 tx).maxPriorityFeePerGas =
          ⌊(tx.maxPriorityFeePerGas : ℚ) * 1.25⌋₊ ∧
        (bump125 tx).maxFeePerGas = ⌊(tx.maxFeePerGas : ℚ) * 1.25⌋₊) ∧
    (∀ tx : Tx, tx.maxPriorityFeePerGas ≤ tx.maxFeePerGas →
        (bump125 tx).maxPriorityFeePerGas ≤ (bump125 tx).maxFeePerGas) ∧
    (∀ tx : Tx,
        attemptTxs
            (runAttempts (Channel.publicRpc fun _ => PubOutcome.unconfirmed)
              0 6 tx).1 =
          [tx, bump125 tx, bump125 (bump125 tx),
           bump125 (bump125 (bump125 tx)),
           bump125 (bump125 (bump125 (bump125 tx))),
           bump125 (bump125 (bump125 (bump125 (bump125 tx))))]) :=
  ⟨fun _ => ⟨mulBigInt125_eq_floor _, mulBigInt125_eq_floor _⟩,
   fun _ h => mulBigInt_mono 125 2 h,
   fun _ => rfl⟩

/-- Witness for C2 at a transaction with priorityFee 6 and capFee 14. -/
theorem C2_witness :
    (bump125 txW2).maxPriorityFeePerGas =
      ⌊(txW2.maxPriorityFeePerGas : ℚ) * 1.25⌋₊ ∧
    (bump125 txW2).maxPriorityFeePerGas ≤ (bump125 txW2).maxFeePerGas :=
  ⟨(C2_escalation_exact.1 txW2).1, C2_escalation_exact.2.1 txW2 (by decide)⟩

/-- Counterexample to claim C4 as stated: its closing example is a
miscalculation. At balance 10 ^ 18 wei and capFee 10 gwei the reserved
cost is 21000 * 10 ^ 10 * 2 = 420000000000000 wei, so the code resolves
the ALL amount to 999580000000000000 wei, not the claimed
999999580000000000 wei (which would correspond to reserving only
420000000000 wei). -/
theorem C4_counterexample :
    sendNativeStep 1000000000000000000 ⟨1000000000, 10000000000⟩
        NativeAmount.all =
      some 999580000000000000 ∧
    (999580000000000000 : ℕ) ≠ 999999580000000000 := by
  constructor
  · norm_num [sendNativeStep]
  · norm_num

/-- Claim C4 (amended: the worked example value is corrected to
999580000000000000 wei): for a native ALL request with balance B and
quoted capFee F, the loop re-polls whenever B ≤ 21000 * F * 2 and
otherwise resolves the send amount to exactly B - 21000 * F * 2; in
particular balance 10 ^ 18 wei at capFee 10 gwei resolves to
999580000000000000 wei. -/
theorem C4_drain_resolution :
    (∀ (bal : ℕ) (fee : FeeQuote), bal ≤ 21000 * fee.maxFeePerGas * 2 →
        sendNativeStep bal fee NativeAmount.all = none) ∧
    (∀ (bal : ℕ) (fee : FeeQuote), 21000 * fee.maxFeePerGas * 2 < bal →
        sendNativeStep bal fee NativeAmount.all =
          some (bal - 21000 * fee.maxFeePerGas * 2)) ∧
    sendNativeStep 1000000000000000000 ⟨1000000000, 10000000000⟩
        NativeAmount.all =
      some 999580000000000000 := by
  refine ⟨?_, ?_, by norm_num [sendNativeStep]⟩
  · intro bal fee h
    by_cases h0 : bal ≤ 0
    · simp [sendNativeStep, h0]
    · simp [sendNativeStep, h0, h]
  · intro bal fee h
    have h0 : ¬ bal ≤ 0 := by omega
    have h1 : ¬ bal ≤ 21000 * fee.maxFeePerGas * 2 := by omega
    simp [sendNativeStep, h0, h1]

/-- Witness for C4: balance 100 re-polls at capFee 10, balance 1000000
resolves to 1000000 - 420000 = 580000 at capFee 10. -/
theorem C4_witness :
    sendNativeStep 100 ⟨1, 10⟩ NativeAmount.all = none ∧
    sendNativeStep 1000000 ⟨1, 10⟩ NativeAmount.all = some 580000 := by
  constructor
  · exact C4_drain_resolution.1 100 ⟨1, 10⟩ (by norm_num)
  · exact C4_drain_resolution.2.1 1000000 ⟨1, 10⟩ (by norm_num)

/-- Claim C1: every run of the escalation loop performs at most 6
delivery attempts, and against a public endpoint that always reports
unconfirmed the run performs exactly 6 attempts, ends in the terminal
RetriesExhausted failure, and exactly 5 fee-bump pauses fall between the
attempts. -/
theorem C1_attempt_ceiling :
    (∀ (ch : Channel) (tx : Tx),
        countAttempts (runAttempts ch 0 6 tx).1 ≤ 6) ∧
    (∀ tx : Tx,
        countAttempts
            (runAttempts (Channel.publicRpc fun _ => PubOutcome.unconfirmed)
              0 6 tx).1 = 6 ∧
        (runAttempts (Channel.publicRpc fun _ => PubOutcome.unconfirmed)
            0 6 tx).2 = SendResult.retriesExhausted ∧
        interveningBumpPauses
            (runAttempts (Channel.publicRpc fun _ => PubOutcome.unconfirmed)
              0 6 tx).1 = 5) :=
  ⟨fun ch tx => countAttempts_runAttempts_le ch 6 0 tx,
   fun _ => ⟨rfl, rfl, rfl⟩⟩

/-- Claim C3: within one logical send the nonce is assigned once, as the
pending nonce passed to sendWithBump, and every attempted transaction of
the escalation sequence carries that same nonce and the unchanged
recipient, value, call data and gas limit: escalation replaces only the
two fee fields. -/
theorem C3_nonce_invariant :
    ∀ (ch : Channel) (fd : FeeData) (latest : Option Block)
      (pendingNonce : ℕ) (base : BaseTx) (mp md : ℕ)
      (r : List Event × SendResult) (t : Tx),
      sendWithBump ch fd latest pendingNonce base mp md = some r →
      t ∈ attemptTxs r.1 →
      t.nonce = pendingNonce ∧ t.toAddr = base.toAddr ∧
        t.value = base.value ∧ t.data = base.data ∧
        t.gasLimit = base.gasLimit := by
  intro ch fd latest n base mp md r t hsome hmem
  unfold sendWithBump at hsome
  rw [Option.map_eq_some'] at hsome
  obtain ⟨fee, _, hrun⟩ := hsome
  subst hrun
  exact attempt_fields ch 6 0 _ t hmem

/-- Witness for C3: a concrete public-channel send with pending nonce 9;
the first attempted transaction carries nonce 9 and the base fields. -/
theorem C3_witness :
    txW3.nonce = 9 ∧ txW3.toAddr = baseW3.toAddr ∧
      txW3.value = baseW3.value ∧ txW3.data = baseW3.data ∧
      txW3.gasLimit = baseW3.gasLimit :=
  C3_nonce_invariant (Channel.publicRpc fun _ => PubOutcome.unconfirmed)
    ⟨some 3, some 7⟩ none 9 baseW3 2 0
    (runAttempts (Channel.publicRpc fun _ => PubOutcome.unconfirmed) 0 6 txW3)
    txW3 rfl (by decide)

/-- Claim C5: when the relay channel is selected and the relay returns a
successful response to the first attempt, the run terminates in
RelayAccepted after exactly one attempt, with no pause event (no
confirmation wait, no fee escalation), and the recorded value carries the
full response body whether or not it parses as JSON. -/
theorem C5_relay_single_attempt :
    ∀ (rs : ℕ → RelayResponse) (tx : Tx), (rs 0).ok = true →
      runAttempts (Channel.relay rs) 0 6 tx =
        ([Event.attempt tx], SendResult.relayAccepted (relayOut (rs 0))) ∧
      RelayOut.body (relayOut (rs 0)) = (rs 0).body := by
  intro rs tx h
  constructor
  · have hs : sendViaRelay (rs 0) = Except.ok (relayOut (rs 0)) := by
      simp [sendViaRelay, h]
    simp [runAttempts, hs]
  · by_cases hp : (rs 0).parsesAsJson
    · simp [relayOut, hp, RelayOut.body]
    · simp [relayOut, hp, RelayOut.body]

/-- Witness for C5: a relay stub returning one successful non-JSON
response terminates in RelayAccepted after one attempt with the body
recorded verbatim. -/
theorem C5_witness :
    runAttempts
        (Channel.relay fun _ =>
          { ok := true, body := "ok-not-json", parsesAsJson := false })
        0 6 txW5 =
      ([Event.attempt txW5],
        SendResult.relayAccepted
          (relayOut { ok := true, body := "ok-not-json", parsesAsJson := false })) ∧
    RelayOut.body
        (relayOut { ok := true, body := "ok-not-json", parsesAsJson := false }) =
      "ok-not-json" :=
  C5_relay_single_attempt
    (fun _ => { ok := true, body := "ok-not-json", parsesAsJson := false })
    txW5 rfl

/-- Counterexample to claim C6 as stated: a non-2xx relay response does
NOT surface as a terminal failure of the logical send. The thrown relay
error is caught by the catch block of the retry loop (src/RPC/Relay lines
78-82), which pauses and re-enters the relay path: with a relay that
rejects attempt 1 and accepts attempt 2, the send performs 2 attempts and
terminates successfully in RelayAccepted. -/
theorem C6_counterexample :
    (runAttempts (Channel.relay rsRejectThenAccept) 0 6 txW6).2 =
      SendResult.relayAccepted (RelayOut.json "accepted") ∧
    countAttempts (runAttempts (Channel.relay rsRejectThenAccept) 0 6 txW6).1 = 2 ∧
    (runAttempts (Channel.relay rsRejectThenAccept) 0 6 txW6).2 ≠
      SendResult.retriesExhausted := by
  refine ⟨rfl, rfl, by decide⟩

/-- Claim C6 (amended: a non-2xx relay response is a hard failure for
that attempt only; the sender catches it, records it, pauses, and retries
the relay with the unchanged transaction, never escalating fees on the
relay path; only when all 6 attempts are rejected does the send surface
the terminal RetriesExhausted failure). -/
theorem C6_relay_rejection_amended :
    ∀ (rs : ℕ → RelayResponse) (tx : Tx), (∀ i, (rs i).ok = false) →
      (runAttempts (Channel.relay rs) 0 6 tx).2 =
        SendResult.retriesExhausted ∧
      attemptTxs (runAttempts (Channel.relay rs) 0 6 tx).1 =
        List.replicate 6 tx :=
  fun rs tx h => relay_allFail rs h 6 0 tx

/-- Witness for the amended C6: an always-rejecting relay exhausts all 6
attempts with the transaction (and so its fees) unchanged. -/
theorem C6_witness :
    (runAttempts
        (Channel.relay fun _ =>
          { ok := false, body := "err", parsesAsJson := false })
        0 6 txW6).2 =
      SendResult.retriesExhausted ∧
    attemptTxs
        (runAttempts
          (Channel.relay fun _ =>
            { ok := false, body := "err", parsesAsJson := false })
          0 6 txW6).1 =
      List.replicate 6 txW6 :=
  C6_relay_rejection_amended
    (fun _ => { ok := false, body := "err", parsesAsJson := false })
    txW6 (fun _ => rfl)

/-- Counterexample to claim C8 as stated: the inline fee assignment of
sendWithBump and the Fee Estimator getFee do NOT agree on every fee-data
result. With both fee-data fields absent and no latest block, getFee
defaults the base fee to 1 gwei and returns a quote, while the inline code
of sendWithBump fails (reading baseFeePerGas of a null block throws). -/
theorem C8_counterexample :
    assignInitialFees ⟨none, none⟩ none 2 0 ≠
      some (getFee ⟨none, none⟩ none 2 0) := by
  decide

/-- Claim C8 (amended: the inline fee assignment of sendWithBump agrees
with getFee at the same multiplier whenever the fee-data result carries a
present nonzero maxFeePerGas, or carries no maxFeePerGas while the latest
block is available and carries a base fee; the two diverge when
maxFeePerGas is 0, where getFee re-derives the cap from the base fee but
the inline code keeps 0, and when the block or its base fee is absent,
where getFee defaults the base fee to 1 gwei but the inline code fails). -/
theorem C8_fee_assignment_amended :
    ∀ (fd : FeeData) (latest : Option Block) (mp md : ℕ),
      ((∃ m, fd.maxFeePerGas = some m ∧ m ≠ 0) ∨
        (fd.maxFeePerGas = none ∧
          ∃ bf, Option.bind latest Block.baseFeePerGas = some bf)) →
      assignInitialFees fd latest mp md = some (getFee fd latest mp md) := by
  intro fd latest mp md h
  rcases h with ⟨m, hm, hm0⟩ | ⟨hnone, bf, hbf⟩
  · simp [assignInitialFees, getFee, feeCapRaw, hm, hm0]
  · simp [assignInitialFees, getFee, feeCapRaw, hnone, hbf]

/-- Witness for the amended C8 at fee data with a present nonzero cap. -/
theorem C8_witness :
    assignInitialFees ⟨some 1, some 3⟩ none 2 0 =
      some (getFee ⟨some 1, some 3⟩ none 2 0) :=
  C8_fee_assignment_amended ⟨some 1, some 3⟩ none 2 0
    (Or.inl ⟨3, rfl, by decide⟩)

/-- Counterexample to claim C9 as stated: no code path rejects a quote
with priorityFee above capFee. When the provider reports
maxPriorityFeePerGas 10 and maxFeePerGas 5, getFee at multiplier 2 returns
the violating quote (20, 10), and sendWithBump signs and broadcasts a
transaction carrying priorityFee 20 above capFee 10, which here even
confirms. -/
theorem C9_counterexample :
    (getFee ⟨some 10, some 5⟩ none 2 0).maxFeePerGas <
      (getFee ⟨some 10, some 5⟩ none 2 0).maxPriorityFeePerGas ∧
    sendWithBump (Channel.publicRpc fun _ => PubOutcome.receipt 1)
        ⟨some 10, some 5⟩ none 7 ⟨1, some 100, none, 21000⟩ 2 0 =
      some ([Event.attempt txC9], SendResult.confirmed 1) ∧
    txC9.maxFeePerGas < txC9.maxPriorityFeePerGas := by
  refine ⟨by decide, rfl, by decide⟩

/-- Claim C9 (amended: a getFee quote satisfies capFee at least
priorityFee whenever the provider reports no maxFeePerGas, a zero
maxFeePerGas, or a maxFeePerGas no smaller than the effective priority
fee, and every escalation step preserves that invariant; the code has no
rejection step, so a provider reporting a cap below the priority fee
yields a violating quote that is signed and broadcast unchecked). -/
theorem C9_fee_invariant_amended :
    ∀ (fd : FeeData) (latest : Option Block) (mp md : ℕ) (tx : Tx),
      (∀ m, fd.maxFeePerGas = some m → m = 0 ∨ feePriority fd ≤ m) →
      tx.maxPriorityFeePerGas ≤ tx.maxFeePerGas →
      (getFee fd latest mp md).maxPriorityFeePerGas ≤
        (getFee fd latest mp md).maxFeePerGas ∧
      (bump125 tx).maxPriorityFeePerGas ≤ (bump125 tx).maxFeePerGas := by
  intro fd latest mp md tx hfd htx
  refine ⟨?_, mulBigInt_mono 125 2 htx⟩
  apply mulBigInt_mono
  unfold feeCapRaw
  split
  · exact Nat.le_add_left (feePriority fd) _
  · rename_i hne
    cases hm : fd.maxFeePerGas with
    | none => simp [hm] at hne
    | some m =>
      rcases hfd m hm with h0 | hle
      · rw [hm] at hne
        simp [h0] at hne
      · simpa [hm] using hle

/-- Witness for the amended C9: with both fee-data fields absent the
quote is (4 gwei, 6 gwei), which satisfies the invariant, and an
escalation step on a quote (4, 8) preserves it. -/
theorem C9_witness :
    (getFee ⟨none, none⟩ none 2 0).maxPriorityFeePerGas ≤
      (getFee ⟨none, none⟩ none 2 0).maxFeePerGas ∧
    (bump125 txW9).maxPriorityFeePerGas ≤ (bump125 txW9).maxFeePerGas :=
  C9_fee_invariant_amended ⟨none, none⟩ none 2 0 txW9
    (fun _ h => Option.noConfusion h) (by decide)

/-- Claim C10: for a token transfer with request ALL, the encoded
transfer call data of every attempted transaction carries the full raw
integer token balance with no gas-reservation subtracted, and the raw
value (500 units at 6 decimals is 500000000) is not the scaled display
value 500. -/
theorem C10_token_drain_full_balance :
    (∀ (tokenAddr recipient bal dec : ℕ) (ch : Channel) (fd : FeeData)
        (latest : Option Block) (n mp md : ℕ)
        (r : List Event × SendResult) (t : Tx),
        sendWithBump ch fd latest n
            (sendTokenBase tokenAddr recipient TokenAmount.all bal dec)
            mp md = some r →
        t ∈ attemptTxs r.1 →
        t.data = some { toArg := recipient, amountArg := bal }) ∧
    tokenSendValue TokenAmount.all 500000000 6 = 500000000 ∧
    (500000000 : ℕ) / 10 ^ 6 = 500 ∧ (500000000 : ℕ) ≠ 500 := by
  refine ⟨?_, rfl, by norm_num, by norm_num⟩
  intro tokenAddr recipient bal dec ch fd latest n mp md r t hsome hmem
  unfold sendWithBump at hsome
  rw [Option.map_eq_some'] at hsome
  obtain ⟨fee, _, hrun⟩ := hsome
  subst hrun
  have h := attempt_fields ch 6 0 _ t hmem
  exact h.2.2.2.1

/-- Witness for C10: a concrete confirmed token send of a raw balance of
500000000; the attempted transaction data carries that full balance. -/
theorem C10_witness :
    txW10.data = some { toArg := 2, amountArg := 500000000 } :=
  C10_token_drain_full_balance.1 1 2 500000000 6
    (Channel.publicRpc fun _ => PubOutcome.receipt 1)
    ⟨some 1, some 1⟩ none 0 2 0
    (runAttempts (Channel.publicRpc fun _ => PubOutcome.receipt 1) 0 6 txW10)
    txW10 rfl (by decide)

end EvmAuto
